import Mathlib

/-!
Shallow embedding of `CareerAIAgent.py` (repository `DayInTheLife`): the
`BaseAgent` turn executor and the `MultiAgentCareerSimulator` orchestrator.

External collaborators are modelled as explicit inputs:
* the chat-completion endpoint is modelled by the list of stream chunks a
  call receives (`TurnEnv.chunks`) together with the wall-clock reading
  used for the result's timestamp (`TurnEnv.now`);
* the Python standard-library parser `json.loads` is modelled by a
  parameter `loads : String → Option Json` (`none` = the parser raised);
* Python `dict`/`list` JSON values are modelled by the inductive `Json`
  (JSON numbers restricted to integers, which suffices for every value the
  orchestrator itself constructs).
-/

/-- A JSON-like Python value: the payloads that appear as prompt context
and as parsed model output in `CareerAIAgent.py`. -/
inductive Json where
  | null : Json
  | bool : Bool → Json
  | num : Int → Json
  | str : String → Json
  | arr : List Json → Json
  | obj : List (String × Json) → Json
  deriving Repr

mutual

/-- Structural equality on `Json`, modelling Python `==` on parsed JSON
values. -/
def Json.beq : Json → Json → Bool
  | .null, .null => true
  | .bool x, .bool y => x == y
  | .num x, .num y => x == y
  | .str x, .str y => x == y
  | .arr xs, .arr ys => Json.beqElems xs ys
  | .obj xs, .obj ys => Json.beqFields xs ys
  | _, _ => false

def Json.beqElems : List Json → List Json → Bool
  | [], [] => true
  | x :: xs, y :: ys => Json.beq x y && Json.beqElems xs ys
  | _, _ => false

def Json.beqFields : List (String × Json) → List (String × Json) → Bool
  | [], [] => true
  | (k, v) :: xs, (l, w) :: ys => k == l && Json.beq v w && Json.beqFields xs ys
  | _, _ => false

end

mutual

theorem Json.eq_of_beq : ∀ (a b : Json), Json.beq a b = true → a = b
  | .null, .null, _ => rfl
  | .bool x, .bool y, h => by simp only [Json.beq, beq_iff_eq] at h; rw [h]
  | .num x, .num y, h => by simp only [Json.beq, beq_iff_eq] at h; rw [h]
  | .str x, .str y, h => by simp only [Json.beq, beq_iff_eq] at h; rw [h]
  | .arr xs, .arr ys, h => by
      rw [Json.eqElems_of_beq xs ys (by simpa only [Json.beq] using h)]
  | .obj xs, .obj ys, h => by
      rw [Json.eqFields_of_beq xs ys (by simpa only [Json.beq] using h)]
  | .null, .bool _, h => by simp only [Json.beq] at h; exact Bool.noConfusion h
  | .null, .num _, h => by simp only [Json.beq] at h; exact Bool.noConfusion h
  | .null, .str _, h => by simp only [Json.beq] at h; exact Bool.noConfusion h
  | .null, .arr _, h => by simp only [Json.beq] at h; exact Bool.noConfusion h
  | .null, .obj _, h => by simp only [Json.beq] at h; exact Bool.noConfusion h
  | .bool _, .null, h => by simp only [Json.beq] at h; exact Bool.noConfusion h
  | .bool _, .num _, h => by simp only [Json.beq] at h; exact Bool.noConfusion h
  | .bool _, .str _, h => by simp only [Json.beq] at h; exact Bool.noConfusion h
  | .bool _, .arr _, h => by simp only [Json.beq] at h; exact Bool.noConfusion h
  | .bool _, .obj _, h => by simp only [Json.beq] at h; exact Bool.noConfusion h
  | .num _, .null, h => by simp only [Json.beq] at h; exact Bool.noConfusion h
  | .num _, .bool _, h => by simp only [Json.beq] at h; exact Bool.noConfusion h
  | .num _, .str _, h => by simp only [Json.beq] at h; exact Bool.noConfusion h
  | .num _, .arr _, h => by simp only [Json.beq] at h; exact Bool.noConfusion h
  | .num _, .obj _, h => by simp only [Json.beq] at h; exact Bool.noConfusion h
  | .str _, .null, h => by simp only [Json.beq] at h; exact Bool.noConfusion h
  | .str _, .bool _, h => by simp only [Json.beq] at h; exact Bool.noConfusion h
  | .str _, .num _, h => by simp only [Json.beq] at h; exact Bool.noConfusion h
  | .str _, .arr _, h => by simp only [Json.beq] at h; exact Bool.noConfusion h
  | .str _, .obj _, h => by simp only [Json.beq] at h; exact Bool.noConfusion h
  | .arr _, .null, h => by simp only [Json.beq] at h; exact Bool.noConfusion h
  | .arr _, .bool _, h => by simp only [Json.beq] at h; exact Bool.noConfusion h
  | .arr _, .num _, h => by simp only [Json.beq] at h; exact Bool.noConfusion h
  | .arr _, .str _, h => by simp only [Json.beq] at h; exact Bool.noConfusion h
  | .arr _, .obj _, h => by simp only [Json.beq] at h; exact Bool.noConfusion h
  | .obj _, .null, h => by simp only [Json.beq] at h; exact Bool.noConfusion h
  | .obj _, .bool _, h => by simp only [Json.beq] at h; exact Bool.noConfusion h
  | .obj _, .num _, h => by simp only [Json.beq] at h; exact Bool.noConfusion h
  | .obj _, .str _, h => by simp only [Json.beq] at h; exact Bool.noConfusion h
  | .obj _, .arr _, h => by simp only [Json.beq] at h; exact Bool.noConfusion h

theorem Json.eqElems_of_beq : ∀ (xs ys : List Json), Json.beqElems xs ys = true → xs = ys
  | [], [], _ => rfl
  | x :: xs, y :: ys, h => by
      simp only [Json.beqElems, Bool.and_eq_true] at h
      rw [Json.eq_of_beq x y h.1, Json.eqElems_of_beq xs ys h.2]
  | [], _ :: _, h => by simp only [Json.beqElems] at h; exact Bool.noConfusion h
  | _ :: _, [], h => by simp only [Json.beqElems] at h; exact Bool.noConfusion h

theorem Json.eqFields_of_beq : ∀ (xs ys : List (String × Json)), Json.beqFields xs ys = true → xs = ys
  | [], [], _ => rfl
  | (k, v) :: xs, (l, w) :: ys, h => by
      simp only [Json.beqFields, Bool.and_eq_true, beq_iff_eq] at h
      rw [h.1.1, Json.eq_of_beq v w h.1.2, Json.eqFields_of_beq xs ys h.2]
  | [], _ :: _, h => by simp only [Json.beqFields] at h; exact Bool.noConfusion h
  | _ :: _, [], h => by simp only [Json.beqFields] at h; exact Bool.noConfusion h

end

mutual

theorem Json.beq_refl : ∀ (a : Json), Json.beq a a = true
  | .null => rfl
  | .bool x => by simp only [Json.beq, beq_self_eq_true]
  | .num x => by simp only [Json.beq, beq_self_eq_true]
  | .str x => by simp only [Json.beq, beq_self_eq_true]
  | .arr xs => by simp only [Json.beq]; exact Json.beqElems_refl xs
  | .obj xs => by simp only [Json.beq]; exact Json.beqFields_refl xs

theorem Json.beqElems_refl : ∀ (xs : List Json), Json.beqElems xs xs = true
  | [] => rfl
  | x :: xs => by
      simp only [Json.beqElems, Bool.and_eq_true]
      exact ⟨Json.beq_refl x, Json.beqElems_refl xs⟩

theorem Json.beqFields_refl : ∀ (xs : List (String × Json)), Json.beqFields xs xs = true
  | [] => rfl
  | (k, v) :: xs => by
      simp only [Json.beqFields, Bool.and_eq_true, beq_self_eq_true, true_and]
      exact ⟨Json.beq_refl v, Json.beqFields_refl xs⟩

end

instance : DecidableEq Json := fun a b =>
  decidable_of_iff (Json.beq a b = true)
    ⟨Json.eq_of_beq a b, fun h => h ▸ Json.beq_refl a⟩

/-- Lower-case hexadecimal digit, as used by Python `json.dumps` escapes. -/
def hexDigit (n : Nat) : Char :=
  if n < 10 then Char.ofNat (48 + n) else Char.ofNat (87 + n)

/-- Four lower-case hexadecimal digits. -/
def hex4 (n : Nat) : String :=
  String.mk [hexDigit (n / 4096 % 16), hexDigit (n / 256 % 16), hexDigit (n / 16 % 16), hexDigit (n % 16)]

/-- Python `json.dumps` non-ASCII escape (`ensure_ascii=True`), with a UTF-16
surrogate pair for code points above U+FFFF. -/
def uEscape (c : Char) : String :=
  if c.val ≤ 0xffff then "\\u" ++ hex4 c.val.toNat
  else
    let v := c.val.toNat - 0x10000
    "\\u" ++ hex4 (0xd800 + v / 0x400) ++ "\\u" ++ hex4 (0xdc00 + v % 0x400)

/-- Escaping of one character inside a Python `json.dumps` string literal. -/
def escapeChar (c : Char) : String :=
  if c = '"' then "\\\""
  else if c = '\\' then "\\\\"
  else if c = '\n' then "\\n"
  else if c = '\r' then "\\r"
  else if c = '\t' then "\\t"
  else if c = '\x08' then "\\b"
  else if c = '\x0c' then "\\f"
  else if c.val < 0x20 ∨ c.val > 0x7e then uEscape c
  else String.mk [c]

/-- Python `json.dumps` rendering of a string. -/
def pyStrRepr (s : String) : String :=
  "\"" ++ String.join (s.toList.map escapeChar) ++ "\""

mutual

/-- Python `json.dumps` with default separators, as called by
`BaseAgent._format_prompt` (`CareerAIAgent.py` line 68). -/
def Json.dumps : Json → String
  | .null => "null"
  | .bool true => "true"
  | .bool false => "false"
  | .num n => toString n
  | .str s => pyStrRepr s
  | .arr xs => "[" ++ Json.dumpsElems xs ++ "]"
  | .obj fs => "\x7b" ++ Json.dumpsFields fs ++ "\x7d"

def Json.dumpsElems : List Json → String
  | [] => ""
  | [x] => Json.dumps x
  | x :: y :: xs => Json.dumps x ++ ", " ++ Json.dumpsElems (y :: xs)

def Json.dumpsFields : List (String × Json) → String
  | [] => ""
  | [(k, v)] => pyStrRepr k ++ ": " ++ Json.dumps v
  | (k, v) :: f :: fs => pyStrRepr k ++ ": " ++ Json.dumps v ++ ", " ++ Json.dumpsFields (f :: fs)

end

/-- One `{role, content}` chat message (`CareerAIAgent.py` lines 22-25). -/
structure Message where
  role : String
  content : String
  deriving Repr, DecidableEq

/-- The delta of one stream chunk: `reasoning_content` is read with
`getattr(..., None)` so it may be absent, and `content` is optional in the
chat-completions stream (`CareerAIAgent.py` lines 55, 58).  The source
reads `chunk.choices[0].delta`; the chunk is modelled at the delta level. -/
structure Delta where
  reasoning_content : Option String
  content : Option String
  deriving Repr, DecidableEq

structure Chunk where
  delta : Delta
  deriving Repr, DecidableEq

/-- The environment of one model call: the chunks the streaming response
yields, and the `datetime.now().isoformat()` reading used for the
timestamp (`CareerAIAgent.py` line 33). -/
structure TurnEnv where
  chunks : List Chunk
  now : String
  deriving Repr, DecidableEq

/-- The record returned by `BaseAgent.think_and_act`
(`CareerAIAgent.py` lines 29-34). -/
structure TurnResult where
  agent : String
  reasoning : String
  action : String
  timestamp : String
  deriving Repr, DecidableEq

/-- `BaseAgent._format_prompt` (`CareerAIAgent.py` lines 66-69): a `None`
or empty context dict is falsy in Python, so the task is returned alone;
otherwise the serialized context is prefixed. -/
def format_prompt (prompt : String) (context : Option (List (String × Json))) : String :=
  match context with
  | some ctx =>
      if ctx.isEmpty then prompt
      else "Context: " ++ Json.dumps (Json.obj ctx) ++ "\n\nTask: " ++ prompt
  | none => prompt

/-- The two-message exchange built in `BaseAgent.think_and_act`
(`CareerAIAgent.py` lines 22-25). -/
def think_messages (systemPrompt : String) (prompt : String) (context : Option (List (String × Json))) : List Message :=
  [{ role := "system", content := systemPrompt },
   { role := "user", content := format_prompt prompt context }]

/-- The body of the accumulation loop of `BaseAgent._call_model`
(`CareerAIAgent.py` lines 54-59).  Python `if r:` / `if ...content:` skip
both `None` and the empty string. -/
def call_model_step (acc : String × String) (chunk : Chunk) : String × String :=
  let acc1 :=
    match chunk.delta.reasoning_content with
    | some r => if r = "" then acc else (acc.1 ++ r, acc.2)
    | none => acc
  match chunk.delta.content with
  | some s => if s = "" then acc1 else (acc1.1, acc1.2 ++ s)
  | none => acc1

/-- `BaseAgent._call_model` (`CareerAIAgent.py` lines 36-61): submit the
messages, then fold the response stream into the `(reasoning, content)`
accumulator pair.  The returned pair depends only on the stream. -/
def call_model (_messages : List Message) (chunks : List Chunk) : String × String :=
  chunks.foldl call_model_step ("", "")

/-- `BaseAgent.think_and_act` (`CareerAIAgent.py` lines 20-34). -/
def think_and_act (roleName : String) (systemPrompt : String) (prompt : String)
    (context : Option (List (String × Json))) (env : TurnEnv) : TurnResult :=
  let messages := think_messages systemPrompt prompt context
  let response := call_model messages env.chunks
  { agent := roleName, reasoning := response.1, action := response.2, timestamp := env.now }

/-- The answer ("content") channel a turn environment yields; by
construction `(think_and_act _ _ _ _ env).action = env.answer`. -/
def TurnEnv.answer (env : TurnEnv) : String :=
  (call_model [] env.chunks).2

/-- The reasoning channel a turn environment yields. -/
def TurnEnv.reasoningText (env : TurnEnv) : String :=
  (call_model [] env.chunks).1

/-- `CareerResearchAgent.get_system_prompt` (`CareerAIAgent.py` lines 74-81). -/
def research_system_prompt : String :=
  "You are a Career Research Agent. Your job:\n1. DECIDE if you have enough information about the career to create realistic scenarios\n2. If NOT, identify WHAT specific information you need (typical day, common challenges, required skills, tools used)\n3. Output your decision and reasoning\n\nUse /think to analyze what\x27s known vs needed. Output JSON:\n\x7b\"needs_research\": true/false, \"missing_info\": [...], \"known_info\": \x7b...\x7d\x7d"

/-- `ScenarioDesignerAgent.get_system_prompt` (`CareerAIAgent.py` lines 86-95). -/
def scenario_system_prompt : String :=
  "You are a Scenario Designer Agent. Create realistic, challenging scenarios for career simulations.\n\nFor each scenario, include:\n- Realistic problem/situation\n- 3-4 decision options with trade-offs\n- Hidden complexity that reveals career realities\n\nUse /think to ensure authenticity. Output JSON:\n\x7b\"scenario\": \"...\", \"options\": [...], \"learning_goal\": \"...\"\x7d"

/-- `EvaluationAgent.get_system_prompt` (`CareerAIAgent.py` lines 100-110). -/
def evaluation_system_prompt : String :=
  "You are an Evaluation Agent. Analyze user decisions in career scenarios.\n\nConsider:\n- Immediate consequences\n- Long-term implications\n- What professionals would actually do\n- Skills demonstrated (or lacking)\n\nUse /think to reason about realistic outcomes. Output JSON:\n\x7b\"consequence\": \"...\", \"skills_used\": [...], \"professional_insight\": \"...\"\x7d"

/-- `NarratorAgent.get_system_prompt` (`CareerAIAgent.py` lines 115-119). -/
def narrator_system_prompt : String :=
  "You are a Narrator Agent. Transform scenario data into immersive storytelling.\n\nMake it feel real and engaging while being educational. Keep responses 2-3 paragraphs.\nUse /think to craft compelling narrative that teaches."

/-- The `career_knowledge` record set by
`MultiAgentCareerSimulator.start_simulation` (`CareerAIAgent.py` lines 159-164). -/
structure CareerKnowledge where
  career : String
  researched : Bool
  typical_challenges : String
  tools : String
  deriving Repr, DecidableEq

/-- `career_knowledge` rendered as the Python dict it is, for use as
prompt context. -/
def CareerKnowledge.toJsonFields (ck : CareerKnowledge) : List (String × Json) :=
  [("career", Json.str ck.career), ("researched", Json.bool ck.researched),
   ("typical_challenges", Json.str ck.typical_challenges), ("tools", Json.str ck.tools)]

/-- A `think_and_act` result rendered as the Python dict it is. -/
def TurnResult.toJson (t : TurnResult) : Json :=
  Json.obj [("agent", Json.str t.agent), ("reasoning", Json.str t.reasoning),
            ("action", Json.str t.action), ("timestamp", Json.str t.timestamp)]

/-- `simulation_state` (`CareerAIAgent.py` lines 138-143).  Skill entries
are arbitrary parsed-JSON values, since `list.extend` appends whatever the
Evaluator's `skills_used` holds. -/
structure SimulationState where
  time : String
  scenarios_completed : Nat
  skills_demonstrated : List Json
  current_scenario : Option TurnResult
  deriving Repr, DecidableEq

/-- `simulation_state` rendered as the Python dict it is, for use as
prompt context in `generate_summary`. -/
def SimulationState.toJsonFields (st : SimulationState) : List (String × Json) :=
  [("time", Json.str st.time),
   ("scenarios_completed", Json.num (Int.ofNat st.scenarios_completed)),
   ("skills_demonstrated", Json.arr st.skills_demonstrated),
   ("current_scenario", match st.current_scenario with
     | some t => t.toJson
     | none => Json.null)]

/-- The orchestrator's mutable state (`CareerAIAgent.py` lines 137-144).
`career_knowledge` starts as the empty dict `{}`; it is `none` here until
`start_simulation` fills it, and any keyed access while `none` models a
`KeyError`. -/
structure Orchestrator where
  career_knowledge : Option CareerKnowledge
  simulation_state : SimulationState
  agent_log : List TurnResult
  deriving Repr, DecidableEq

/-- `MultiAgentCareerSimulator.__init__` state (`CareerAIAgent.py`
lines 137-144). -/
def init_simulator : Orchestrator :=
  { career_knowledge := none,
    simulation_state :=
      { time := "9:00 AM", scenarios_completed := 0,
        skills_demonstrated := [], current_scenario := none },
    agent_log := [] }

/-- The fixed time-label table of `MultiAgentCareerSimulator._advance_time`
(`CareerAIAgent.py` line 244). -/
def times : List String :=
  ["9:00 AM", "10:30 AM", "12:00 PM", "2:00 PM", "4:00 PM", "5:30 PM"]

/-- `MultiAgentCareerSimulator._advance_time` (`CareerAIAgent.py`
lines 242-246): index the table by `scenarios_completed` clamped to the
last index. -/
def advance_time (st : SimulationState) : String :=
  times.getD (min st.scenarios_completed (times.length - 1)) ""

/-- `MultiAgentCareerSimulator.start_simulation` (`CareerAIAgent.py`
lines 146-184).  The three turn environments are the streamed responses of
the Research, Scenario Designer and Narrator calls, in order. -/
def start_simulation (o : Orchestrator) (career : String)
    (envResearch envScenario envNarrator : TurnEnv) : Orchestrator × String :=
  let research_result := think_and_act "Research" research_system_prompt
      ("Do we have enough information to simulate a day as a " ++ career ++ "? What do we need to know?")
      (some [("career", Json.str career)]) envResearch
  let log1 := o.agent_log ++ [research_result]
  let ck : CareerKnowledge :=
    { career := career, researched := true,
      typical_challenges := "Common challenges for " ++ career,
      tools := "Tools used in " ++ career }
  let scenario_result := think_and_act "Scenario Designer" scenario_system_prompt
      ("Design an engaging opening scenario for a " ++ career ++ "\x27s day at 9 AM")
      (some ck.toJsonFields) envScenario
  let log2 := log1 ++ [scenario_result]
  let narrative_result := think_and_act "Narrator" narrator_system_prompt
      ("Present this scenario engagingly: " ++ scenario_result.action)
      (some [("career", Json.str career), ("time", Json.str "9:00 AM")]) envNarrator
  ({ career_knowledge := some ck,
     simulation_state := { o.simulation_state with current_scenario := some scenario_result },
     agent_log := log2 ++ [narrative_result] },
   narrative_result.action)

/-- Python `dict.get` on a parsed-JSON object; on duplicate keys the later
binding wins, as in a dict built by `json.loads`. -/
def dict_get (fields : List (String × Json)) (key : String) : Option Json :=
  (fields.reverse.find? (fun kv => kv.1 == key)).map (fun kv => kv.2)

/-- Python `skills.extend(v)` for a parsed-JSON value `v`: a list extends
element-wise, a string extends by its characters, a dict by its keys, and
anything else raises `TypeError` (returned as `none`, to be swallowed by
the bare `except`). -/
def extend_skills (skills : List Json) (v : Json) : Option (List Json) :=
  match v with
  | .arr items => some (skills ++ items)
  | .str s => some (skills ++ s.toList.map (fun ch => Json.str (String.mk [ch])))
  | .obj fs => some (skills ++ fs.map (fun kv => Json.str kv.1))
  | _ => none

/-- The `try: eval_data = json.loads(...) ... except: pass` block of
`process_user_decision` (`CareerAIAgent.py` lines 202-208): on a parse
failure, on a non-dict parse, on a missing `skills_used` key the default
`[]` extends nothing, and on a non-iterable `skills_used` the raised
`TypeError` is swallowed — in all those cases the skills are unchanged. -/
def update_skills (loads : String → Option Json) (action : String) (skills : List Json) : List Json :=
  match loads action with
  | some (.obj fields) =>
      match dict_get fields "skills_used" with
      | some v => (extend_skills skills v).getD skills
      | none => skills
  | _ => skills

/-- `MultiAgentCareerSimulator.process_user_decision` (`CareerAIAgent.py`
lines 186-240).  Reading `career_knowledge["career"]` on the initial empty
dict raises, hence `none` when the simulation was never started. -/
def process_user_decision (loads : String → Option Json) (o : Orchestrator) (user_choice : String)
    (envEval envScenario envNarrator : TurnEnv) : Option (Orchestrator × String) :=
  match o.career_knowledge with
  | none => none
  | some ck =>
    let eval_result := think_and_act "Evaluator" evaluation_system_prompt
        ("User chose: \x27" ++ user_choice ++ "\x27. Evaluate this decision.")
        (some [("scenario", match o.simulation_state.current_scenario with
                  | some t => t.toJson
                  | none => Json.null),
               ("career", Json.str ck.career)]) envEval
    let log1 := o.agent_log ++ [eval_result]
    let skills1 := update_skills loads eval_result.action o.simulation_state.skills_demonstrated
    let st1 : SimulationState :=
      { o.simulation_state with
        scenarios_completed := o.simulation_state.scenarios_completed + 1,
        skills_demonstrated := skills1 }
    let st2 : SimulationState := { st1 with time := advance_time st1 }
    let next_scenario := think_and_act "Scenario Designer" scenario_system_prompt
        "Create next scenario based on the consequence of user\x27s choice"
        (some [("previous_choice", Json.str user_choice),
               ("consequence", Json.str eval_result.action),
               ("time", Json.str st2.time),
               ("career", Json.str ck.career)]) envScenario
    let log2 := log1 ++ [next_scenario]
    let narrative := think_and_act "Narrator" narrator_system_prompt
        "Tell the story of what happened after their choice and introduce the new scenario"
        (some [("choice", Json.str user_choice),
               ("consequence", Json.str eval_result.action),
               ("next_scenario", Json.str next_scenario.action)]) envNarrator
    some ({ o with
            simulation_state := { st2 with current_scenario := some next_scenario },
            agent_log := log2 ++ [narrative] },
          narrative.action)

/-- The record returned by `MultiAgentCareerSimulator.generate_summary`
(`CareerAIAgent.py` lines 266-272). -/
structure SummaryRecord where
  career : String
  scenarios_completed : Nat
  skills : List Json
  summary : String
  agent_interactions : Nat
  deriving Repr, DecidableEq

/-- `MultiAgentCareerSimulator.generate_summary` (`CareerAIAgent.py`
lines 248-272).  `list(set(...))` is modelled by `List.dedup` (structural
equality, unspecified order).  The orchestrator state is returned alongside
the record: the source mutates none of its fields.  `none` models the
`KeyError` on `career_knowledge["career"]` when never started (in the
source that access happens after the two model calls). -/
def generate_summary (o : Orchestrator) (envEval envNarrator : TurnEnv) :
    Option (Orchestrator × SummaryRecord) :=
  match o.career_knowledge with
  | none => none
  | some ck =>
    let eval_summary := think_and_act "Evaluator" evaluation_system_prompt
        "Summarize the skills and decisions demonstrated"
        (some o.simulation_state.toJsonFields) envEval
    let narrative_summary := think_and_act "Narrator" narrator_system_prompt
        "Create an engaging summary of the career day experience"
        (some [("state", Json.obj o.simulation_state.toJsonFields),
               ("evaluation", Json.str eval_summary.action)]) envNarrator
    some (o,
      { career := ck.career,
        scenarios_completed := o.simulation_state.scenarios_completed,
        skills := o.simulation_state.skills_demonstrated.dedup,
        summary := narrative_summary.action,
        agent_interactions := o.agent_log.length })

/-- One user turn's inputs: the free-text choice and the three streamed
responses consumed by `process_user_decision`. -/
structure DecisionStep where
  user_choice : String
  envEval : TurnEnv
  envScenario : TurnEnv
  envNarrator : TurnEnv
  deriving Repr, DecidableEq

/-- A sequence of `process_user_decision` calls, threading the orchestrator
state; `none` as soon as one call raises. -/
def run_decisions (loads : String → Option Json) (o : Orchestrator) : List DecisionStep → Option Orchestrator
  | [] => some o
  | d :: rest =>
    match process_user_decision loads o d.user_choice d.envEval d.envScenario d.envNarrator with
    | none => none
    | some (o2, _) => run_decisions loads o2 rest

/-- Spec-side description of the stream accumulators: the concatenation, in
arrival order, of the deltas one channel yields, an absent delta
contributing nothing.  Written from the spec's words, to be compared with
the source-side `call_model`. -/
def concat_deltas (f : Chunk → Option String) : List Chunk → String
  | [] => ""
  | c :: rest => (f c).getD "" ++ concat_deltas f rest

/-! ### Concrete fixtures (used by witnesses and counterexamples) -/

/-- A turn environment whose stream yields no chunks. -/
def exEnv : TurnEnv := { chunks := [], now := "" }

/-- The `json.loads` model that fails on every input. -/
def exLoads : String → Option Json := fun _ => none

def exCk : CareerKnowledge :=
  { career := "Chef", researched := true,
    typical_challenges := "Common challenges for Chef",
    tools := "Tools used in Chef" }

def exTurn : TurnResult :=
  { agent := "Research", reasoning := "", action := "", timestamp := "" }

/-- A started simulation: `career_knowledge` set, three logged turns. -/
def exO : Orchestrator :=
  { career_knowledge := some exCk,
    simulation_state :=
      { time := "9:00 AM", scenarios_completed := 0,
        skills_demonstrated := [], current_scenario := none },
    agent_log := [exTurn, exTurn, exTurn] }

/-- The record `generate_summary exO exEnv exEnv` returns. -/
def exSummary : SummaryRecord :=
  { career := "Chef", scenarios_completed := 0, skills := [],
    summary := "", agent_interactions := 3 }

/-- The orchestrator state after `process_user_decision exLoads exO "go"`
with empty streams. -/
def exO2 : Orchestrator :=
  { career_knowledge := some exCk,
    simulation_state :=
      { time := "10:30 AM", scenarios_completed := 1,
        skills_demonstrated := [],
        current_scenario :=
          some { agent := "Scenario Designer", reasoning := "", action := "", timestamp := "" } },
    agent_log :=
      [exTurn, exTurn, exTurn,
       { agent := "Evaluator", reasoning := "", action := "", timestamp := "" },
       { agent := "Scenario Designer", reasoning := "", action := "", timestamp := "" },
       { agent := "Narrator", reasoning := "", action := "", timestamp := "" }] }

/-- A started simulation whose skill list holds a duplicated string. -/
def exOdup : Orchestrator :=
  { career_knowledge := some exCk,
    simulation_state :=
      { time := "9:00 AM", scenarios_completed := 2,
        skills_demonstrated := [Json.str "a", Json.str "a", Json.str "b"],
        current_scenario := none },
    agent_log := [] }

/-- The record `generate_summary exOdup exEnv exEnv` returns. -/
def exSummaryDup : SummaryRecord :=
  { career := "Chef", scenarios_completed := 2,
    skills := [Json.str "a", Json.str "b"],
    summary := "", agent_interactions := 0 }

/-! ### Helper lemmas -/

theorem think_and_act_action (roleName systemPrompt prompt : String)
    (context : Option (List (String × Json))) (env : TurnEnv) :
    (think_and_act roleName systemPrompt prompt context env).action = env.answer := rfl

theorem think_and_act_agent (roleName systemPrompt prompt : String)
    (context : Option (List (String × Json))) (env : TurnEnv) :
    (think_and_act roleName systemPrompt prompt context env).agent = roleName := rfl

theorem times_length : times.length = 6 := rfl

theorem start_simulation_fields (o : Orchestrator) (career : String) (e1 e2 e3 : TurnEnv) :
    (start_simulation o career e1 e2 e3).1.career_knowledge =
      some { career := career, researched := true,
             typical_challenges := "Common challenges for " ++ career,
             tools := "Tools used in " ++ career } ∧
    (start_simulation o career e1 e2 e3).1.simulation_state.time = o.simulation_state.time ∧
    (start_simulation o career e1 e2 e3).1.simulation_state.scenarios_completed =
      o.simulation_state.scenarios_completed ∧
    (start_simulation o career e1 e2 e3).1.simulation_state.skills_demonstrated =
      o.simulation_state.skills_demonstrated ∧
    (start_simulation o career e1 e2 e3).1.agent_log.length = o.agent_log.length + 3 := by
  refine ⟨rfl, rfl, rfl, rfl, ?_⟩
  simp [start_simulation, List.length_append]

theorem process_user_decision_isSome (loads : String → Option Json) (o : Orchestrator)
    (user_choice : String) (e1 e2 e3 : TurnEnv) (ck : CareerKnowledge)
    (h : o.career_knowledge = some ck) :
    ∃ o2 s, process_user_decision loads o user_choice e1 e2 e3 = some (o2, s) := by
  simp only [process_user_decision, h]
  exact ⟨_, _, rfl⟩

theorem process_user_decision_inv (loads : String → Option Json) (o : Orchestrator)
    (user_choice : String) (e1 e2 e3 : TurnEnv) (o2 : Orchestrator) (s : String)
    (h : process_user_decision loads o user_choice e1 e2 e3 = some (o2, s)) :
    o2.career_knowledge = o.career_knowledge ∧
    o2.simulation_state.scenarios_completed = o.simulation_state.scenarios_completed + 1 ∧
    o2.simulation_state.skills_demonstrated =
      update_skills loads e1.answer o.simulation_state.skills_demonstrated ∧
    o2.agent_log.length = o.agent_log.length + 3 ∧
    o2.simulation_state.time =
      times.getD (min o2.simulation_state.scenarios_completed 5) "" := by
  cases hck : o.career_knowledge with
  | none => rw [process_user_decision, hck] at h; exact Option.noConfusion h
  | some ck =>
    rw [process_user_decision, hck] at h
    simp only [Option.some.injEq, Prod.mk.injEq] at h
    obtain ⟨h1, _⟩ := h
    subst h1
    refine ⟨rfl, rfl, rfl, ?_, ?_⟩
    · simp [List.length_append]
    · simp [advance_time, times]

theorem generate_summary_eq (o : Orchestrator) (e1 e2 : TurnEnv) (ck : CareerKnowledge)
    (h : o.career_knowledge = some ck) :
    generate_summary o e1 e2 = some (o,
      { career := ck.career,
        scenarios_completed := o.simulation_state.scenarios_completed,
        skills := o.simulation_state.skills_demonstrated.dedup,
        summary := e2.answer,
        agent_interactions := o.agent_log.length }) := by
  rw [generate_summary, h]
  rfl

theorem generate_summary_inv (o : Orchestrator) (e1 e2 : TurnEnv) (o2 : Orchestrator)
    (s : SummaryRecord) (h : generate_summary o e1 e2 = some (o2, s)) :
    o2 = o ∧
    s.skills = o.simulation_state.skills_demonstrated.dedup ∧
    s.agent_interactions = o.agent_log.length ∧
    s.scenarios_completed = o.simulation_state.scenarios_completed := by
  cases hck : o.career_knowledge with
  | none => rw [generate_summary, hck] at h; exact Option.noConfusion h
  | some ck =>
    rw [generate_summary_eq o e1 e2 ck hck] at h
    simp only [Option.some.injEq, Prod.mk.injEq] at h
    obtain ⟨h1, h2⟩ := h
    subst h1
    rw [← h2]
    exact ⟨rfl, rfl, rfl, rfl⟩

theorem run_decisions_spec (loads : String → Option Json) :
    ∀ (steps : List DecisionStep) (o : Orchestrator) (ck : CareerKnowledge),
    o.career_knowledge = some ck →
    ∃ o2, run_decisions loads o steps = some o2 ∧
      o2.career_knowledge = some ck ∧
      o2.simulation_state.scenarios_completed =
        o.simulation_state.scenarios_completed + steps.length ∧
      o2.agent_log.length = o.agent_log.length + 3 * steps.length ∧
      (steps = [] → o2 = o) ∧
      (steps ≠ [] → o2.simulation_state.time =
        times.getD (min o2.simulation_state.scenarios_completed 5) "")
  | [], o, ck, h => ⟨o, rfl, h, rfl, rfl, fun _ => rfl, fun hne => absurd rfl hne⟩
  | d :: rest, o, ck, h => by
    obtain ⟨o1, s1, hp⟩ :=
      process_user_decision_isSome loads o d.user_choice d.envEval d.envScenario d.envNarrator ck h
    obtain ⟨hck1, hsc1, _, hlog1, htime1⟩ :=
      process_user_decision_inv loads o d.user_choice d.envEval d.envScenario d.envNarrator o1 s1 hp
    obtain ⟨o2, hrun, hck2, hsc2, hlog2, hnil2, htime2⟩ :=
      run_decisions_spec loads rest o1 ck (hck1.trans h)
    refine ⟨o2, ?_, hck2, ?_, ?_, ?_, ?_⟩
    · rw [run_decisions, hp]; exact hrun
    · rw [hsc2, hsc1, List.length_cons]; omega
    · rw [hlog2, hlog1, List.length_cons]; omega
    · intro hcons; exact absurd hcons (List.cons_ne_nil d rest)
    · intro _
      cases rest with
      | nil => rw [hnil2 rfl]; exact htime1
      | cons e tl => exact htime2 (List.cons_ne_nil e tl)

theorem call_model_step_eq (a b : String) (rc cc : Option String) :
    call_model_step (a, b) ⟨⟨rc, cc⟩⟩ = (a ++ rc.getD "", b ++ cc.getD "") := by
  cases rc with
  | none =>
    cases cc with
    | none => simp [call_model_step, String.append_empty]
    | some s =>
      simp only [call_model_step]
      by_cases hs : s = "" <;> simp [hs, String.append_empty]
  | some r =>
    cases cc with
    | none =>
      simp only [call_model_step]
      by_cases hr : r = "" <;> simp [hr, String.append_empty]
    | some s =>
      simp only [call_model_step]
      by_cases hr : r = "" <;> by_cases hs : s = "" <;>
        simp [hr, hs, String.append_empty]

theorem foldl_call_model_step : ∀ (chunks : List Chunk) (a b : String),
    chunks.foldl call_model_step (a, b) =
      (a ++ concat_deltas (fun c => c.delta.reasoning_content) chunks,
       b ++ concat_deltas (fun c => c.delta.content) chunks)
  | [], a, b => by simp [concat_deltas, String.append_empty]
  | c :: rest, a, b => by
    obtain ⟨⟨rc, cc⟩⟩ := c
    rw [List.foldl_cons, call_model_step_eq, foldl_call_model_step rest]
    simp [concat_deltas, String.append_assoc]

theorem call_model_eq (messages : List Message) (chunks : List Chunk) :
    call_model messages chunks =
      (concat_deltas (fun c => c.delta.reasoning_content) chunks,
       concat_deltas (fun c => c.delta.content) chunks) := by
  rw [call_model, foldl_call_model_step]
  simp [String.empty_append]

/-! ### Claims -/

/-- C1: starting from a fresh orchestrator on which `start_simulation` has
been called, every sequence of N `process_user_decision` calls (any model
outputs, any parser behaviour) ends with `scenarios_completed = N` and
`time` equal to the entry of the fixed label table at index `min N 5`. -/
theorem claim_C1 (loads : String → Option Json) (career : String)
    (e1 e2 e3 : TurnEnv) (steps : List DecisionStep) :
    ∃ o2, run_decisions loads (start_simulation init_simulator career e1 e2 e3).1 steps = some o2 ∧
      o2.simulation_state.scenarios_completed = steps.length ∧
      o2.simulation_state.time = times.getD (min steps.length 5) "" := by
  obtain ⟨hck, htime, hsc, _, _⟩ := start_simulation_fields init_simulator career e1 e2 e3
  obtain ⟨o2, hrun, _, hsc2, _, hnil, htime2⟩ :=
    run_decisions_spec loads steps (start_simulation init_simulator career e1 e2 e3).1 _ hck
  have hscfin : o2.simulation_state.scenarios_completed = steps.length := by
    rw [hsc2, hsc]; simp [init_simulator]
  refine ⟨o2, hrun, hscfin, ?_⟩
  cases steps with
  | nil => rw [hnil rfl, htime]; rfl
  | cons d tl =>
    rw [htime2 (List.cons_ne_nil d tl), hscfin]

/-- C2, counterexample to the claim as stated: on a started simulation with
a three-entry log, `generate_summary` returns the orchestrator with its log
still of length 3, not 3 + 2 — the two summary turns are never appended. -/
theorem claim_C2_counterexample :
    generate_summary exO exEnv exEnv = some (exO, exSummary) ∧
    exO.agent_log.length = 3 ∧
    exSummary.agent_interactions = 3 ∧
    ¬ (3 : Nat) = 3 + 2 :=
  ⟨rfl, rfl, rfl, by decide⟩

/-- C2 (amended): `generate_summary` leaves the interaction log unchanged
(it grows by 0 entries, not 2), and the returned record's
`agent_interactions` field equals the (unchanged) log length. -/
theorem claim_C2 (o : Orchestrator) (e1 e2 : TurnEnv) (o2 : Orchestrator)
    (s : SummaryRecord) (h : generate_summary o e1 e2 = some (o2, s)) :
    o2.agent_log = o.agent_log ∧ s.agent_interactions = o2.agent_log.length := by
  obtain ⟨h1, _, h3, _⟩ := generate_summary_inv o e1 e2 o2 s h
  subst h1
  exact ⟨rfl, h3⟩

theorem claim_C2_witness :
    exO.agent_log = exO.agent_log ∧ exSummary.agent_interactions = exO.agent_log.length :=
  claim_C2 exO exEnv exEnv exO exSummary rfl

/-- C3: on a started simulation, when the Evaluator's answer text does not
parse as JSON the call still succeeds and `skills_demonstrated` is
unchanged; when it parses to an object whose `skills_used` key holds a
list, exactly those entries are appended. -/
theorem claim_C3 (loads : String → Option Json) (o : Orchestrator) (user_choice : String)
    (e1 e2 e3 : TurnEnv) (ck : CareerKnowledge) (h : o.career_knowledge = some ck) :
    (loads e1.answer = none →
      ∃ o2 s, process_user_decision loads o user_choice e1 e2 e3 = some (o2, s) ∧
        o2.simulation_state.skills_demonstrated = o.simulation_state.skills_demonstrated) ∧
    (∀ fields items, loads e1.answer = some (Json.obj fields) →
      dict_get fields "skills_used" = some (Json.arr items) →
      ∃ o2 s, process_user_decision loads o user_choice e1 e2 e3 = some (o2, s) ∧
        o2.simulation_state.skills_demonstrated =
          o.simulation_state.skills_demonstrated ++ items) := by
  constructor
  · intro hnone
    obtain ⟨o2, s, hp⟩ :=
      process_user_decision_isSome loads o user_choice e1 e2 e3 ck h
    obtain ⟨_, _, hsk, _, _⟩ :=
      process_user_decision_inv loads o user_choice e1 e2 e3 o2 s hp
    refine ⟨o2, s, hp, ?_⟩
    rw [hsk]
    simp [update_skills, hnone]
  · intro fields items hsome hget
    obtain ⟨o2, s, hp⟩ :=
      process_user_decision_isSome loads o user_choice e1 e2 e3 ck h
    obtain ⟨_, _, hsk, _, _⟩ :=
      process_user_decision_inv loads o user_choice e1 e2 e3 o2 s hp
    refine ⟨o2, s, hp, ?_⟩
    rw [hsk]
    simp [update_skills, hsome, hget, extend_skills]

theorem claim_C3_witness :
    ∃ o2 s, process_user_decision exLoads exO "taste the soup" exEnv exEnv exEnv = some (o2, s) ∧
      o2.simulation_state.skills_demonstrated = exO.simulation_state.skills_demonstrated :=
  (claim_C3 exLoads exO "taste the soup" exEnv exEnv exEnv exCk rfl).1 rfl

/-- C4: on a fresh orchestrator the interaction log has length exactly 3
after `start_simulation`, whatever the model streams; and every successful
`process_user_decision` call grows the log by exactly 3. -/
theorem claim_C4 :
    (∀ (career : String) (e1 e2 e3 : TurnEnv),
      (start_simulation init_simulator career e1 e2 e3).1.agent_log.length = 3) ∧
    (∀ (loads : String → Option Json) (o : Orchestrator) (user_choice : String)
       (e1 e2 e3 : TurnEnv) (o2 : Orchestrator) (s : String),
      process_user_decision loads o user_choice e1 e2 e3 = some (o2, s) →
      o2.agent_log.length = o.agent_log.length + 3) := by
  constructor
  · intro career e1 e2 e3
    have h := (start_simulation_fields init_simulator career e1 e2 e3).2.2.2.2
    rw [h]; rfl
  · intro loads o user_choice e1 e2 e3 o2 s h
    exact (process_user_decision_inv loads o user_choice e1 e2 e3 o2 s h).2.2.2.1

theorem claim_C4_witness :
    (start_simulation init_simulator "Chef" exEnv exEnv exEnv).1.agent_log.length = 3 ∧
    exO2.agent_log.length = exO.agent_log.length + 3 :=
  ⟨claim_C4.1 "Chef" exEnv exEnv exEnv,
   claim_C4.2 exLoads exO "go" exEnv exEnv exEnv exO2 "" rfl⟩

/-- C5: the `skills` field of a returned summary record has no duplicate
entries, and its elements are exactly the distinct elements of
`skills_demonstrated` (order unspecified). -/
theorem claim_C5 (o : Orchestrator) (e1 e2 : TurnEnv) (o2 : Orchestrator)
    (s : SummaryRecord) (h : generate_summary o e1 e2 = some (o2, s)) :
    s.skills.Nodup ∧ ∀ x, x ∈ s.skills ↔ x ∈ o.simulation_state.skills_demonstrated := by
  obtain ⟨_, h2, _, _⟩ := generate_summary_inv o e1 e2 o2 s h
  rw [h2]
  exact ⟨List.nodup_dedup _, fun x => List.mem_dedup⟩

theorem claim_C5_witness :
    exSummaryDup.skills.Nodup ∧
    (Json.str "a" ∈ exSummaryDup.skills ↔
      Json.str "a" ∈ exOdup.simulation_state.skills_demonstrated) :=
  ⟨(claim_C5 exOdup exEnv exEnv exOdup exSummaryDup rfl).1,
   (claim_C5 exOdup exEnv exEnv exOdup exSummaryDup rfl).2 (Json.str "a")⟩

/-- C6: `scenarios_completed` never decreases — each successful
`process_user_decision` call increases it by exactly 1, while
`start_simulation` and `generate_summary` leave it unchanged. -/
theorem claim_C6 :
    (∀ (loads : String → Option Json) (o : Orchestrator) (user_choice : String)
       (e1 e2 e3 : TurnEnv) (o2 : Orchestrator) (s : String),
      process_user_decision loads o user_choice e1 e2 e3 = some (o2, s) →
      o2.simulation_state.scenarios_completed =
        o.simulation_state.scenarios_completed + 1) ∧
    (∀ (o : Orchestrator) (career : String) (e1 e2 e3 : TurnEnv),
      (start_simulation o career e1 e2 e3).1.simulation_state.scenarios_completed =
        o.simulation_state.scenarios_completed) ∧
    (∀ (o : Orchestrator) (e1 e2 : TurnEnv) (o2 : Orchestrator) (s : SummaryRecord),
      generate_summary o e1 e2 = some (o2, s) →
      o2.simulation_state.scenarios_completed =
        o.simulation_state.scenarios_completed) := by
  refine ⟨?_, ?_, ?_⟩
  · intro loads o user_choice e1 e2 e3 o2 s h
    exact (process_user_decision_inv loads o user_choice e1 e2 e3 o2 s h).2.1
  · intro o career e1 e2 e3
    exact (start_simulation_fields o career e1 e2 e3).2.2.1
  · intro o e1 e2 o2 s h
    rw [(generate_summary_inv o e1 e2 o2 s h).1]

theorem claim_C6_witness :
    exO2.simulation_state.scenarios_completed =
      exO.simulation_state.scenarios_completed + 1 ∧
    (start_simulation exO "Chef" exEnv exEnv exEnv).1.simulation_state.scenarios_completed =
      exO.simulation_state.scenarios_completed ∧
    exO.simulation_state.scenarios_completed = exO.simulation_state.scenarios_completed :=
  ⟨claim_C6.1 exLoads exO "go" exEnv exEnv exEnv exO2 "" rfl,
   claim_C6.2.1 exO "Chef" exEnv exEnv exEnv,
   claim_C6.2.2 exO exEnv exEnv exO exSummary rfl⟩

/-- C7: after `start_simulation career`, whatever the Research turn's
answer, `career_knowledge` is the fixed-shape record derived only from the
career string, and neither `process_user_decision` nor `generate_summary`
ever modifies it. -/
theorem claim_C7 :
    (∀ (o : Orchestrator) (career : String) (e1 e2 e3 : TurnEnv),
      (start_simulation o career e1 e2 e3).1.career_knowledge =
        some { career := career, researched := true,
               typical_challenges := "Common challenges for " ++ career,
               tools := "Tools used in " ++ career }) ∧
    (∀ (loads : String → Option Json) (o : Orchestrator) (user_choice : String)
       (e1 e2 e3 : TurnEnv) (o2 : Orchestrator) (s : String),
      process_user_decision loads o user_choice e1 e2 e3 = some (o2, s) →
      o2.career_knowledge = o.career_knowledge) ∧
    (∀ (o : Orchestrator) (e1 e2 : TurnEnv) (o2 : Orchestrator) (s : SummaryRecord),
      generate_summary o e1 e2 = some (o2, s) →
      o2.career_knowledge = o.career_knowledge) := by
  refine ⟨?_, ?_, ?_⟩
  · intro o career e1 e2 e3
    exact (start_simulation_fields o career e1 e2 e3).1
  · intro loads o user_choice e1 e2 e3 o2 s h
    exact (process_user_decision_inv loads o user_choice e1 e2 e3 o2 s h).1
  · intro o e1 e2 o2 s h
    rw [(generate_summary_inv o e1 e2 o2 s h).1]

theorem claim_C7_witness :
    (start_simulation exO "Chef" exEnv exEnv exEnv).1.career_knowledge =
      some { career := "Chef", researched := true,
             typical_challenges := "Common challenges for " ++ "Chef",
             tools := "Tools used in " ++ "Chef" } ∧
    exO2.career_knowledge = exO.career_knowledge ∧
    exO.career_knowledge = exO.career_knowledge :=
  ⟨claim_C7.1 exO "Chef" exEnv exEnv exEnv,
   claim_C7.2.1 exLoads exO "go" exEnv exEnv exEnv exO2 "" rfl,
   claim_C7.2.2 exO exEnv exEnv exO exSummary rfl⟩

/-- C8: the user message the turn executor submits is
`"Context: " ++ json.dumps(context) ++ "\n\nTask: " ++ task` when the
context mapping is non-empty, and the task text alone when the context is
absent or empty. -/
theorem claim_C8 (systemPrompt prompt : String) (ctx : List (String × Json)) :
    (ctx ≠ [] → think_messages systemPrompt prompt (some ctx) =
      [{ role := "system", content := systemPrompt },
       { role := "user",
         content := "Context: " ++ Json.dumps (Json.obj ctx) ++ "\n\nTask: " ++ prompt }]) ∧
    think_messages systemPrompt prompt none =
      [{ role := "system", content := systemPrompt },
       { role := "user", content := prompt }] ∧
    think_messages systemPrompt prompt (some []) =
      [{ role := "system", content := systemPrompt },
       { role := "user", content := prompt }] := by
  refine ⟨?_, rfl, rfl⟩
  intro hne
  cases ctx with
  | nil => exact absurd rfl hne
  | cons a t => rfl

theorem claim_C8_witness :
    think_messages "sys" "task" (some [("career", Json.str "Chef")]) =
      [{ role := "system", content := "sys" },
       { role := "user",
         content := "Context: " ++ Json.dumps (Json.obj [("career", Json.str "Chef")]) ++
           "\n\nTask: " ++ "task" }] :=
  (claim_C8 "sys" "task" [("career", Json.str "Chef")]).1 (List.cons_ne_nil _ _)

/-- C9: for every role and stream, `think_and_act` returns the role's name
as `agent`, the in-order concatenation of the reasoning-channel deltas as
`reasoning`, and the in-order concatenation of the answer-channel deltas as
`action`; absent deltas contribute nothing. -/
theorem claim_C9 (roleName systemPrompt prompt : String)
    (ctx : Option (List (String × Json))) (env : TurnEnv) :
    (think_and_act roleName systemPrompt prompt ctx env).agent = roleName ∧
    (think_and_act roleName systemPrompt prompt ctx env).reasoning =
      concat_deltas (fun c => c.delta.reasoning_content) env.chunks ∧
    (think_and_act roleName systemPrompt prompt ctx env).action =
      concat_deltas (fun c => c.delta.content) env.chunks := by
  refine ⟨rfl, ?_, ?_⟩ <;>
    simp [think_and_act, call_model_eq]

/-- C10: `generate_summary` leaves the whole simulation state unchanged:
the orchestrator after the call (time, counter, scenario, knowledge, and
the raw duplicate-keeping skill list) is the orchestrator before it —
deduplication happens only in the returned record. -/
theorem claim_C10 (o : Orchestrator) (e1 e2 : TurnEnv) (o2 : Orchestrator)
    (s : SummaryRecord) (h : generate_summary o e1 e2 = some (o2, s)) :
    o2 = o :=
  (generate_summary_inv o e1 e2 o2 s h).1

theorem claim_C10_witness : exOdup = exOdup :=
  claim_C10 exOdup exEnv exEnv exOdup exSummaryDup rfl
